import Mathlib

/-!
Verification of the admission and staging logic of the osc-plugin-factory
repository. The Python sources (check_source.py, osc-staging.py,
osclib/ignore_command.py) are shallowly embedded below: remote lookups and
the external classifier run appear as explicit inputs, mutation of
review_messages and reviewer additions appear as returned values.
-/

namespace OscFactory

/-- A single quote character, used inside message strings. -/
def sq : String := String.singleton '\x27'

/-- A reviewer attached to a request: either a group (by_group) or a user
(by_user), as passed to ReviewBot.add_review. -/
inductive ReviewTarget where
  | group (name : String)
  | user (name : String)
deriving DecidableEq, Repr

/-- One call to add_review: the reviewer and the message. -/
structure Escalation where
  target : ReviewTarget
  msg : String
deriving DecidableEq, Repr

/-- Outcome of a check_* method: either review_messages[declined] is set and
False is returned, or review_messages[accepted] is set, reviews are added and
True is returned. -/
inductive CheckResult where
  | declined (msg : String)
  | accepted (msg : String) (escalations : List Escalation)
deriving DecidableEq, Repr

/-- Configuration of the CheckSource bot (fields set in __init__ and
setup_checker of check_source.py). -/
structure CheckSourceConfig where
  ignore_devel : Bool
  devel_whitelist : List String
  review_team : Option String
  repo_checker : Option String
  skip_add_reviews : Bool
deriving DecidableEq, Repr

/-- Remote facts consulted by check_source_submission and is_devel_project:
the devel relationship of the target package (get_devel_project) and the
matches attribute returned by the osc.core.search devel query. -/
structure DevelEnv where
  devel : Option (String × String)
  search_matches : String
deriving DecidableEq, Repr

/-- Result of package_source_parse: declared name and version of a package,
each possibly absent. -/
structure PackageInfo where
  name : Option String
  version : Option String
deriving DecidableEq, Repr

/-- Result of running the source-checker.pl script: the waitpid status and
the stdout lines (each line keeps its trailing newline, as readlines gives). -/
structure ClassifierRun where
  exit_code : Nat
  lines : List String
deriving DecidableEq, Repr

/-- CheckSource.is_devel_project: whitelist membership short-circuits the
remote search; otherwise the search matches attribute must differ from "0". -/
def is_devel_project (cfg : CheckSourceConfig) (env : DevelEnv)
    (source_project : String) : Bool :=
  if source_project ∈ cfg.devel_whitelist then true
  else env.search_matches ≠ "0"

/-- Possible outcome of the devel-ownership stage of check_source_submission
(lines 44-56 of check_source.py): either a decline message or fall-through. -/
inductive DevelCheck where
  | declined (msg : String)
  | ok
deriving DecidableEq, Repr

/-- Devel-ownership stage of check_source_submission: skipped when
ignore_devel; with a devel relationship the source identity must equal it
exactly; without one the source project must qualify via is_devel_project. -/
def devel_check (cfg : CheckSourceConfig) (env : DevelEnv)
    (source_project source_package target_project : String) : DevelCheck :=
  if cfg.ignore_devel then .ok
  else
    match env.devel with
    | some (devel_project, devel_package) =>
      if source_project ≠ devel_project ∨ source_package ≠ devel_package then
        .declined ("Expected submission from devel package " ++ devel_project
          ++ "/" ++ devel_package)
      else .ok
    | none =>
      if ¬ is_devel_project cfg env source_project then
        .declined (source_project ++ " is not a devel project of "
          ++ target_project ++ ", submit the package to a devel project first")
      else .ok

/-- Rendering of an optional parsed name inside the decline message, as
Python string formatting renders None. -/
def show_name : Option String → String
  | none => "None"
  | some s => s

/-- Decline message for a declared-name mismatch (line 84 of
check_source.py). -/
def name_mismatch_msg (target_package : String) (found : Option String) : String :=
  "A package submitted as " ++ target_package ++ " has to build as "
    ++ sq ++ "Name: " ++ target_package ++ sq ++ " - found Name "
    ++ sq ++ show_name found ++ sq

/-- Python truthiness of an optional string: None and the empty string are
falsy. -/
def py_truthy : Option String → Bool
  | none => false
  | some s => s ≠ ""

/-- The new_version variable of check_source_submission (lines 90-93): set to
the new declared version only when the old version is truthy and differs from
the new one; otherwise it stays None. -/
def compute_new_version (old_version new_version : Option String) : Option String :=
  if py_truthy old_version ∧ old_version ≠ new_version then new_version
  else none

/-- The translate(None, chr 27) call: remove every ESC character. -/
def strip_esc (s : String) : String :=
  String.mk (s.data.filter (fun c => c ≠ '\x1B'))

/-- The output variable: the stdout lines joined by two spaces with ESC
characters removed (lines 99 and 114 of check_source.py). -/
def join_output (checked : List String) : String :=
  strip_esc (String.intercalate "  " checked)

/-- Python str.split(" "): cut at every single space, keeping empty pieces
between consecutive spaces. -/
def splitSpace : List Char → List (List Char)
  | [] => [[]]
  | c :: cs =>
    if c = ' ' then [] :: splitSpace cs
    else
      match splitSpace cs with
      | [] => [[c]]
      | w :: ws => (c :: w) :: ws

/-- Python whitespace, as stripped by int(). -/
def isWs (c : Char) : Bool :=
  c = ' ' ∨ c = '\n' ∨ c = '\t' ∨ c = '\x0d'

/-- Strip leading and trailing whitespace. -/
def stripWs (l : List Char) : List Char :=
  ((l.dropWhile isWs).reverse.dropWhile isWs).reverse

/-- The numeric value of a decimal digit. -/
def digit? (c : Char) : Option Nat :=
  if '0' ≤ c ∧ c ≤ '9' then some (c.toNat - '0'.toNat) else none

/-- Accumulating decimal parse of a digit sequence. -/
def digitsToNatAux : List Char → Nat → Option Nat
  | [], acc => some acc
  | c :: cs, acc =>
    match digit? c with
    | none => none
    | some d => digitsToNatAux cs (acc * 10 + d)

/-- A non-empty all-digit sequence as a number, None otherwise. -/
def digitsToNat : List Char → Option Nat
  | [] => none
  | l => digitsToNatAux l 0

/-- The Python int() conversion of a string: surrounding whitespace is
ignored, an optional sign precedes the digits, anything else raises
(modelled as None). -/
def pyIntOfChars (l : List Char) : Option Int :=
  match stripWs l with
  | '-' :: rest => (digitsToNat rest).map (fun n => -(n : Int))
  | '+' :: rest => (digitsToNat rest).map (fun n => (n : Int))
  | l₀ => (digitsToNat l₀).map (fun n => (n : Int))

/-- Python str.startswith. -/
def startsWithChars : List Char → List Char → Bool
  | _, [] => true
  | [], _ :: _ => false
  | c :: cs, d :: ds => c = d ∧ startsWithChars cs ds

/-- Python s.startswith(t) on strings. -/
def py_startswith (s t : String) : Bool :=
  startsWithChars s.data t.data

/-- Parsing of the DIFFCOUNT line: int(line.split(" ")[1]), None on the
inputs where the Python call would raise (a missing second field or a
non-numeric one). int() ignores surrounding whitespace, which matters
because the line keeps its trailing newline. -/
def parse_count (line : String) : Option Int :=
  ((splitSpace line.data).get? 1).bind pyIntOfChars

/-- Lines 110-118 of check_source.py: the diff magnitude and the remaining
output lines. When the last line carries a DIFFCOUNT marker it is popped and
its count used, forced to 12345 when no new-version hint was computed; with
no marker (or no output at all) the magnitude is 13579. None models the
ValueError of int() on a malformed marker line. -/
def diffcount_split (checked : List String) (new_version : Option String) :
    Option (Int × List String) :=
  match checked.getLast? with
  | some last =>
    if py_startswith last "DIFFCOUNT" then
      match parse_count last with
      | none => none
      | some d =>
        some ((if new_version = none then (12345 : Int) else d), checked.dropLast)
    else some (13579, checked)
  | none => some (13579, checked)

/-- Lines 123-129 of check_source.py: the add_review calls made after an
accepted check, in order. -/
def escalations_for (cfg : CheckSourceConfig) (diff : Int) : List Escalation :=
  if cfg.skip_add_reviews then []
  else
    (if diff > 8 then
      match cfg.review_team with
      | some team => [⟨.group team, "Please review sources"⟩]
      | none => []
    else []) ++
    (match cfg.repo_checker with
     | some user => [⟨.user user, "Please review build success"⟩]
     | none => [])

/-- The accepted message (lines 108 and 120-121): the base text, extended
with the non-fatal script output when lines remain after the DIFFCOUNT pop. -/
def accepted_message (rest : List String) : String :=
  if rest.length ≠ 0 then
    "Check script succeeded" ++ "\n\nOutput of check script (non-fatal):\n"
      ++ join_output rest
  else "Check script succeeded"

/-- Lines 87-131 of check_source.py, from the classifier invocation on: a
non-zero exit declines with the joined output; otherwise the DIFFCOUNT
magnitude drives the escalation directives. None models the ValueError on a
malformed DIFFCOUNT line. -/
def check_script_stage (cfg : CheckSourceConfig) (run : ClassifierRun)
    (old_version new_info_version : Option String) : Option CheckResult :=
  let new_version := compute_new_version old_version new_info_version
  if run.exit_code ≠ 0 then
    some (.declined ("Output of check script:\n" ++ join_output run.lines))
  else
    match diffcount_split run.lines new_version with
    | none => none
    | some (diff, rest) =>
      some (.accepted (accepted_message rest) (escalations_for cfg diff))

/-- CheckSource.check_source_submission: the devel-ownership stage, then the
declared-name identity check, then the classifier stage. Checkout side
effects are omitted; old_info and new_info are the package_source_parse
results for target and source. -/
def check_source_submission (cfg : CheckSourceConfig) (env : DevelEnv)
    (source_project source_package target_project target_package : String)
    (old_info new_info : PackageInfo) (run : ClassifierRun) :
    Option CheckResult :=
  match devel_check cfg env source_project source_package target_project with
  | .declined msg => some (.declined msg)
  | .ok =>
    if new_info.name ≠ some target_package then
      some (.declined (name_mismatch_msg target_package new_info.name))
    else
      check_script_stage cfg run old_info.version new_info.version

/-- Result of CheckSource.check_one_request: a bundled request is declined
outright, a single-action request is handed to the ReviewBot base class. -/
inductive OneRequestResult where
  | declined (msg : String)
  | deferred
deriving DecidableEq, Repr

/-- CheckSource.check_one_request (lines 31-39), keyed on the length of the
action list of the request. -/
def check_one_request (num_actions : Nat) : OneRequestResult :=
  if num_actions ≠ 1 then .declined "Only one action per request"
  else .deferred

/-- A linked element of the target package source info, as consulted by
check_action_delete. -/
structure LinkedElem where
  project : String
  package : String
deriving DecidableEq, Repr

/-- CheckSource.check_action_delete (lines 189-206), given the action type
and the linked elements found in the project source info: no link accepts as
an unhandled request type, otherwise the first link is named in a decline. -/
def check_action_delete (action_type : String) (links : List LinkedElem) :
    CheckResult :=
  match links with
  | [] => .accepted ("Unhandled request type " ++ action_type) []
  | linked :: _ =>
    .declined ("This is an incorrect request, it" ++ sq
      ++ "s a linked package to " ++ linked.project ++ "/" ++ linked.package)

/-! ## osc-staging.py: the do_staging dispatcher -/

/-- The per-subcommand argument bounds of do_staging (lines 207-224 of
osc-staging.py): None is an unknown command; a None minimum or maximum
imposes no bound (the Python 2 comparison int < None is always False and a
None maximum is skipped explicitly). -/
def cmd_bounds (cmd : String) : Option (Option Nat × Option Nat) :=
  if cmd = "freeze" ∨ cmd = "frozenage" ∨ cmd = "repair" then some (some 1, none)
  else if cmd = "check" then some (some 0, some 2)
  else if cmd = "select" then some (some 0, none)
  else if cmd = "unselect" then some (some 1, none)
  else if cmd = "adi" then some (none, none)
  else if cmd = "ignore" ∨ cmd = "unignore" then some (some 1, none)
  else if cmd = "list" ∨ cmd = "accept" then some (some 0, none)
  else if cmd = "cleanup_rings" ∨ cmd = "acheck" then some (some 0, some 0)
  else none

/-- An oscerr.WrongArgs exception raised by do_staging. -/
inductive StagingError where
  | wrongArgs (msg : String)
deriving DecidableEq, Repr

/-- The argument-count validation of do_staging (lines 204-228): no command,
unknown command, too few or too many arguments each raise WrongArgs. -/
def validate_args (args : List String) : Option StagingError :=
  match args with
  | [] => some (.wrongArgs ("No command given, see \"osc help staging\"!"))
  | cmd :: rest =>
    match cmd_bounds cmd with
    | none => some (.wrongArgs ("Unknown command: " ++ cmd))
    | some (min_args, max_args) =>
      if (match min_args with
          | some m => decide (rest.length < m)
          | none => false) then some (.wrongArgs "Too few arguments.")
      else if (match max_args with
          | some m => decide (rest.length > m)
          | none => false) then some (.wrongArgs "Too many arguments.")
      else none

/-- External effects of do_staging after validation, in program order:
configuration initialization (lines 230-234), optional cache wipe, the OBS
lock acquisition and the remote staging API work under it (lines 236-240
onward). -/
inductive Effect where
  | initConfig
  | wipeCache
  | acquireLock
  | apiDispatch (cmd : String)
deriving DecidableEq, Repr

/-- do_staging as an effect trace: validation runs first and a WrongArgs
raise aborts before any configuration, lock or remote call; otherwise the
effects occur in source order and the subcommand is dispatched under the
lock. -/
def do_staging (args : List String) (wipe_cache : Bool) :
    List Effect × Option StagingError :=
  match validate_args args with
  | some e => ([], some e)
  | none =>
    ([Effect.initConfig]
      ++ (if wipe_cache then [Effect.wipeCache] else [])
      ++ [Effect.acquireLock, Effect.apiDispatch (args.headD "")], none)

/-! ## osc-staging.py: select in proposal mode -/

/-- The filter and grouping expressions accumulated on a RequestSplitter. -/
structure SplitterState where
  filters : List String
  groups : List String
deriving DecidableEq, Repr

/-- Modelled from the spec: a freshly constructed RequestSplitter (the class
itself is outside the sources at hand) carries no filter predicates and no
grouping expressions; the default predicate set is used only when the caller
supplies none. -/
def splitter_new : SplitterState := ⟨[], []⟩

/-- Modelled from the spec: RequestSplitter.filter_add appends one xpath
predicate; multiple predicates compose with logical AND. -/
def filter_add (s : SplitterState) (f : String) : SplitterState :=
  { s with filters := s.filters ++ [f] }

/-- Modelled from the spec: RequestSplitter.filter_add_requests adds a single
predicate restricting to the listed requests (by id or target package). -/
def filter_add_requests (s : SplitterState) (requests : List String) :
    SplitterState :=
  filter_add s ("@id=" ++ String.intercalate " or @id=" requests)

/-- Modelled from the spec: RequestSplitter.group_by appends one grouping
expression; multiple expressions compose hierarchically. -/
def group_by_add (s : SplitterState) (g : String) : SplitterState :=
  { s with groups := s.groups ++ [g] }

/-- The branch condition of line 315 of osc-staging.py: proposal mode is
taken unless exactly one staging with at least one request and no filter or
grouping options was given. -/
def select_proposal_mode (stagings requests filter_by group_by : List String) :
    Bool :=
  stagings.length ≠ 1 ∨ requests.length = 0 ∨ filter_by ≠ [] ∨ group_by ≠ []

/-- The first of the two default predicates of line 324. -/
def default_action_filter : String :=
  "./action[not(@type=\"add_role\" or @type=\"change_devel\")]"

/-- The second of the two default predicates, line 325. -/
def default_ignored_filter : String := "@ignored=\"false\""

/-- Lines 320-331 of osc-staging.py: the filter and grouping setup performed
on the splitter in proposal mode, before splitter.split() groups the
requests. -/
def select_setup (requests filter_by group_by : List String) : SplitterState :=
  let s := splitter_new
  let s := if requests.length > 0 then filter_add_requests s requests else s
  let s := if s.filters.length = 0 then
      filter_add (filter_add s default_action_filter) default_ignored_filter
    else s
  let s := filter_by.foldl filter_add s
  let s := group_by.foldl group_by_add s
  s

/-! ## osclib/ignore_command.py -/

/-- A Python dict key as it occurs in the ignored-requests mapping: the
persisted mapping is keyed by integers, while the membership probe uses the
command-line string. -/
inductive PyKey where
  | int (n : Int)
  | str (s : String)
deriving DecidableEq, Repr

/-- Whether a dict key is an integer, as the keys of the persisted
ignored-requests mapping are. -/
def isIntKey : PyKey → Bool
  | .int _ => true
  | .str _ => false

/-- Python dict assignment d[k] = v: replace the value when the key is
present, otherwise append the binding. -/
def dict_insert (m : List (PyKey × Option String)) (k : PyKey)
    (v : Option String) : List (PyKey × Option String) :=
  if k ∈ m.map Prod.fst then
    m.map (fun p => if p.1 = k then (k, v) else p)
  else m ++ [(k, v)]

/-- The Python int() conversion on a request-id string; None models the
ValueError raise. -/
def pyInt (s : String) : Option Int := pyIntOfChars s.data

/-- The loop body of IgnoreCommand.perform over request_ids: a failing
check_and_comment (request missing or wrong target, here the check input)
skips the id; otherwise the string id is probed against the mapping and, when
absent, the binding int(request_id) = message is written. -/
def ignore_fold (check : String → Bool) (message : Option String) :
    List String → List (PyKey × Option String) →
    Option (List (PyKey × Option String))
  | [], m => some m
  | rid :: rest, m =>
    if check rid then
      if PyKey.str rid ∈ m.map Prod.fst then
        ignore_fold check message rest m
      else
        match pyInt rid with
        | none => none
        | some k => ignore_fold check message rest (dict_insert m (PyKey.int k) message)
    else ignore_fold check message rest m

/-- IgnoreCommand.perform, returning the persisted mapping: the loaded
mapping is updated in memory, and set_ignored_requests rewrites the persisted
state only when the entry count grew; otherwise the persisted mapping is left
as loaded. None models a ValueError of int(). -/
def ignore_perform (check : String → Bool) (message : Option String)
    (request_ids : List String) (m0 : List (PyKey × Option String)) :
    Option (List (PyKey × Option String)) :=
  match ignore_fold check message request_ids m0 with
  | none => none
  | some m1 => some (if m1.length - m0.length > 0 then m1 else m0)

/-! ## Theorems -/

/-- C10: check_one_request declines every request whose action list length
differs from one — including a request with zero actions — with the message
"Only one action per request"; a single-action request is handed on to the
base class. -/
theorem check_one_request_rejects_bundles (n : Nat) (h : n ≠ 1) :
    check_one_request n = .declined "Only one action per request" ∧
    check_one_request 0 = .declined "Only one action per request" ∧
    check_one_request 1 = .deferred := by
  refine ⟨?_, rfl, rfl⟩
  simp [check_one_request, h]

/-- Witness for C10 at a zero-action request. -/
theorem check_one_request_rejects_bundles_witness :
    check_one_request 0 = .declined "Only one action per request" ∧
    check_one_request 1 = .deferred :=
  ⟨(check_one_request_rejects_bundles 0 (by decide)).2.1,
   (check_one_request_rejects_bundles 0 (by decide)).2.2⟩

/-- C5: a delete request against a package whose source info carries a
linked element is declined naming the linked project and package; with no
linked element it is accepted as an unhandled request type. -/
theorem check_action_delete_linked (ty : String) (links : List LinkedElem) :
    (links = [] →
      check_action_delete ty links =
        .accepted ("Unhandled request type " ++ ty) []) ∧
    (∀ l rest, links = l :: rest →
      check_action_delete ty links =
        .declined ("This is an incorrect request, it" ++ sq
          ++ "s a linked package to " ++ l.project ++ "/" ++ l.package)) := by
  constructor
  · intro h; subst h; rfl
  · intro l rest h; subst h; rfl

/-- Witness for C5 on a delete of an unlinked and of a linked package. -/
theorem check_action_delete_linked_witness :
    check_action_delete "delete" [] =
      .accepted ("Unhandled request type " ++ "delete") [] ∧
    check_action_delete "delete" [⟨"openSUSE:Factory", "pkg"⟩] =
      .declined ("This is an incorrect request, it" ++ sq
        ++ "s a linked package to " ++ "openSUSE:Factory" ++ "/" ++ "pkg") :=
  ⟨(check_action_delete_linked "delete" []).1 rfl,
   (check_action_delete_linked "delete" [⟨"openSUSE:Factory", "pkg"⟩]).2
     ⟨"openSUSE:Factory", "pkg"⟩ [] rfl⟩

/-- C4: when the declared name parsed from the proposed source differs from
the target package name, check_source_submission declines with the
mismatch message, which carries both names; when they agree the identity
check passes and validation proceeds to the classifier stage. -/
theorem name_identity_check (cfg : CheckSourceConfig) (env : DevelEnv)
    (sp spk tp tpk : String) (old_info new_info : PackageInfo)
    (run : ClassifierRun)
    (hdevel : devel_check cfg env sp spk tp = .ok) :
    (new_info.name ≠ some tpk →
      check_source_submission cfg env sp spk tp tpk old_info new_info run =
        some (.declined (name_mismatch_msg tpk new_info.name)) ∧
      tpk.data <:+: (name_mismatch_msg tpk new_info.name).data ∧
      (show_name new_info.name).data <:+: (name_mismatch_msg tpk new_info.name).data) ∧
    (new_info.name = some tpk →
      check_source_submission cfg env sp spk tp tpk old_info new_info run =
        check_script_stage cfg run old_info.version new_info.version) := by
  constructor
  · intro h
    refine ⟨?_, ?_, ?_⟩
    · simp only [check_source_submission, hdevel]
      simp [h]
    · refine ⟨("A package submitted as ").data,
        (" has to build as " ++ sq ++ "Name: " ++ tpk ++ sq ++ " - found Name "
          ++ sq ++ show_name new_info.name ++ sq).data, ?_⟩
      simp [name_mismatch_msg, String.data_append]
    · refine ⟨("A package submitted as " ++ tpk ++ " has to build as " ++ sq
          ++ "Name: " ++ tpk ++ sq ++ " - found Name " ++ sq).data,
        sq.data, ?_⟩
      simp [name_mismatch_msg, String.data_append]
  · intro h
    simp only [check_source_submission, hdevel]
    simp [h]

/-- Witness for C4 on a rename and on an agreeing name. -/
theorem name_identity_check_witness :
    check_source_submission ⟨true, [], some "t", some "u", false⟩ ⟨none, "0"⟩
      "sp" "spk" "tp" "pkg" ⟨some "pkg", none⟩ ⟨some "other", none⟩ ⟨0, []⟩ =
      some (.declined (name_mismatch_msg "pkg" (some "other"))) ∧
    check_source_submission ⟨true, [], some "t", some "u", false⟩ ⟨none, "0"⟩
      "sp" "spk" "tp" "pkg" ⟨some "pkg", none⟩ ⟨some "pkg", none⟩ ⟨0, []⟩ =
      check_script_stage ⟨true, [], some "t", some "u", false⟩ ⟨0, []⟩ none none :=
  ⟨((name_identity_check ⟨true, [], some "t", some "u", false⟩ ⟨none, "0"⟩
      "sp" "spk" "tp" "pkg" ⟨some "pkg", none⟩ ⟨some "other", none⟩ ⟨0, []⟩
      rfl).1 (by decide)).1,
   (name_identity_check ⟨true, [], some "t", some "u", false⟩ ⟨none, "0"⟩
      "sp" "spk" "tp" "pkg" ⟨some "pkg", none⟩ ⟨some "pkg", none⟩ ⟨0, []⟩
      rfl).2 rfl⟩

/-- C3: with devel checks enabled, a submission whose source identity
differs from an existing devel relationship is declined naming the expected
devel package, and a submission whose target has no devel relationship is
declined with the route-through-devel message when the source project is
neither whitelisted nor found by the devel search. -/
theorem devel_ownership_check (cfg : CheckSourceConfig) (env : DevelEnv)
    (sp spk tp : String) (h : cfg.ignore_devel = false) :
    (∀ dp dpk, env.devel = some (dp, dpk) → sp ≠ dp ∨ spk ≠ dpk →
      devel_check cfg env sp spk tp =
        .declined ("Expected submission from devel package " ++ dp ++ "/" ++ dpk)) ∧
    (env.devel = none → sp ∉ cfg.devel_whitelist → env.search_matches = "0" →
      devel_check cfg env sp spk tp =
        .declined (sp ++ " is not a devel project of " ++ tp
          ++ ", submit the package to a devel project first")) := by
  constructor
  · intro dp dpk hd hne
    simp [devel_check, h, hd, hne]
  · intro hd hw hm
    simp [devel_check, h, hd, is_devel_project, hw, hm]

/-- Witness for C3 on a wrong-source submission and on a first-time source
project. -/
theorem devel_ownership_check_witness :
    devel_check ⟨false, [], some "t", some "u", false⟩
      ⟨some ("devel:languages", "pkg"), "0"⟩ "home:user" "pkg" "openSUSE:Factory" =
      .declined ("Expected submission from devel package "
        ++ "devel:languages" ++ "/" ++ "pkg") ∧
    devel_check ⟨false, [], some "t", some "u", false⟩ ⟨none, "0"⟩
      "home:user" "pkg" "openSUSE:Factory" =
      .declined ("home:user" ++ " is not a devel project of "
        ++ "openSUSE:Factory" ++ ", submit the package to a devel project first") :=
  ⟨(devel_ownership_check ⟨false, [], some "t", some "u", false⟩
      ⟨some ("devel:languages", "pkg"), "0"⟩ "home:user" "pkg" "openSUSE:Factory"
      rfl).1 "devel:languages" "pkg" rfl (Or.inl (by decide)),
   (devel_ownership_check ⟨false, [], some "t", some "u", false⟩ ⟨none, "0"⟩
      "home:user" "pkg" "openSUSE:Factory" rfl).2 rfl (by decide) rfl⟩

/-- C1: for a request that reaches the diff-magnitude step of
check_source_submission with magnitude m, the team-review escalation
("Please review sources" to the configured review team) is attached exactly
when m exceeds 8, the build-verification escalation ("Please review build
success" to the configured repo checker) is attached regardless of m, and
with skip_add_reviews set no escalation at all is attached. -/
theorem diff_magnitude_escalation (cfg : CheckSourceConfig) (env : DevelEnv)
    (sp spk tp tpk team user : String) (old_info new_info : PackageInfo)
    (run : ClassifierRun) (m : Int) (rest : List String)
    (hdevel : devel_check cfg env sp spk tp = .ok)
    (hname : new_info.name = some tpk)
    (hexit : run.exit_code = 0)
    (hsplit : diffcount_split run.lines
      (compute_new_version old_info.version new_info.version) = some (m, rest))
    (hteam : cfg.review_team = some team)
    (hrepo : cfg.repo_checker = some user)
    (hskip : cfg.skip_add_reviews = false) :
    check_source_submission cfg env sp spk tp tpk old_info new_info run =
      some (.accepted (accepted_message rest) (escalations_for cfg m)) ∧
    (m > 8 →
      Escalation.mk (.group team) "Please review sources" ∈ escalations_for cfg m) ∧
    (m ≤ 8 →
      Escalation.mk (.group team) "Please review sources" ∉ escalations_for cfg m) ∧
    Escalation.mk (.user user) "Please review build success" ∈ escalations_for cfg m ∧
    (∀ cfg₂ : CheckSourceConfig, cfg₂.skip_add_reviews = true →
      escalations_for cfg₂ m = []) := by
  refine ⟨?_, ?_, ?_, ?_, ?_⟩
  · simp only [check_source_submission, hdevel]
    simp [hname, check_script_stage, hexit, hsplit]
  · intro h8
    simp [escalations_for, hskip, hteam, hrepo, h8]
  · intro h8
    simp [escalations_for, hskip, hteam, hrepo, not_lt.mpr h8]
  · by_cases h8 : m > 8 <;> simp [escalations_for, hskip, hteam, hrepo, h8]
  · intro cfg₂ hs
    simp [escalations_for, hs]

/-- Witness for C1 at magnitude 9 (escalates to the team) and at the same
configuration suppressed. -/
theorem diff_magnitude_escalation_witness :
    check_source_submission ⟨true, [], some "t", some "u", false⟩ ⟨none, "0"⟩
      "sp" "pkg" "tp" "pkg" ⟨some "pkg", some "1"⟩ ⟨some "pkg", some "2"⟩
      ⟨0, ["DIFFCOUNT 9\n"]⟩ =
      some (.accepted (accepted_message [])
        (escalations_for ⟨true, [], some "t", some "u", false⟩ 9)) ∧
    Escalation.mk (.group "t") "Please review sources" ∈
      escalations_for ⟨true, [], some "t", some "u", false⟩ 9 ∧
    Escalation.mk (.user "u") "Please review build success" ∈
      escalations_for ⟨true, [], some "t", some "u", false⟩ 9 ∧
    escalations_for ⟨true, [], some "t", some "u", true⟩ 9 = [] := by
  have h := diff_magnitude_escalation ⟨true, [], some "t", some "u", false⟩
    ⟨none, "0"⟩ "sp" "pkg" "tp" "pkg" "t" "u" ⟨some "pkg", some "1"⟩
    ⟨some "pkg", some "2"⟩ ⟨0, ["DIFFCOUNT 9\n"]⟩ 9 [] rfl rfl rfl (by decide)
    rfl rfl rfl
  exact ⟨h.1, h.2.1 (by decide), h.2.2.2.1,
    h.2.2.2.2 ⟨true, [], some "t", some "u", true⟩ rfl⟩

/-- C2: when the classifier succeeds and emits a DIFFCOUNT marker but no
new-version hint was computed (identical declared versions, or no prior
version), the magnitude is forced to 12345; when the marker is absent
entirely the magnitude is 13579; both sentinels exceed 8, so the team-review
escalation fires even for an emitted count of at most 8. -/
theorem unknown_high_escalation (cfg : CheckSourceConfig) (team : String)
    (run : ClassifierRun) (old_version new_version : Option String)
    (hexit : run.exit_code = 0)
    (hteam : cfg.review_team = some team)
    (hskip : cfg.skip_add_reviews = false) :
    (∀ last d, run.lines.getLast? = some last →
      py_startswith last "DIFFCOUNT" = true → parse_count last = some d →
      (old_version = none ∨ old_version = new_version) →
      check_script_stage cfg run old_version new_version =
        some (.accepted (accepted_message run.lines.dropLast)
          (escalations_for cfg 12345))) ∧
    ((∀ last, run.lines.getLast? = some last →
        py_startswith last "DIFFCOUNT" = false) →
      check_script_stage cfg run old_version new_version =
        some (.accepted (accepted_message run.lines)
          (escalations_for cfg 13579))) ∧
    Escalation.mk (.group team) "Please review sources" ∈
      escalations_for cfg 12345 ∧
    Escalation.mk (.group team) "Please review sources" ∈
      escalations_for cfg 13579 := by
  have hnv : ∀ ov nv : Option String, ov = none ∨ ov = nv →
      compute_new_version ov nv = none := by
    intro ov nv h
    rcases h with h | h
    · subst h; rfl
    · subst h; simp [compute_new_version]
  refine ⟨?_, ?_, ?_, ?_⟩
  · intro last d hlast hsw hparse hver
    simp [check_script_stage, hexit, diffcount_split, hlast, hsw, hparse,
      hnv old_version new_version hver]
  · intro hnom
    rcases hl : run.lines.getLast? with _ | last
    · simp [check_script_stage, hexit, diffcount_split, hl]
    · simp [check_script_stage, hexit, diffcount_split, hl, hnom last hl]
  · simp [escalations_for, hskip, hteam]
  · simp [escalations_for, hskip, hteam]

/-- Witness for C2: DIFFCOUNT 3 with an unchanged version escalates, and so
does a run with no marker. -/
theorem unknown_high_escalation_witness :
    check_script_stage ⟨true, [], some "t", some "u", false⟩
      ⟨0, ["DIFFCOUNT 3\n"]⟩ (some "1.0") (some "1.0") =
      some (.accepted (accepted_message [])
        (escalations_for ⟨true, [], some "t", some "u", false⟩ 12345)) ∧
    check_script_stage ⟨true, [], some "t", some "u", false⟩
      ⟨0, ["all fine\n"]⟩ (some "1.0") (some "2.0") =
      some (.accepted (accepted_message ["all fine\n"])
        (escalations_for ⟨true, [], some "t", some "u", false⟩ 13579)) ∧
    Escalation.mk (.group "t") "Please review sources" ∈
      escalations_for ⟨true, [], some "t", some "u", false⟩ 12345 := by
  have h₁ := unknown_high_escalation ⟨true, [], some "t", some "u", false⟩ "t"
    ⟨0, ["DIFFCOUNT 3\n"]⟩ (some "1.0") (some "1.0") rfl rfl rfl
  have h₂ := unknown_high_escalation ⟨true, [], some "t", some "u", false⟩ "t"
    ⟨0, ["all fine\n"]⟩ (some "1.0") (some "2.0") rfl rfl rfl
  refine ⟨?_, ?_, h₁.2.2.1⟩
  · exact h₁.1 "DIFFCOUNT 3\n" 3 rfl (by decide) (by decide) (Or.inr rfl)
  · exact h₂.2.1 (by intro last hl; cases hl; decide)

/-- C7 counterexample: a classifier failure whose sole output line carries
an ESC character is declined, but the raw line does not occur in the decline
message — the output is not surfaced unaltered. -/
theorem classifier_output_not_verbatim :
    check_script_stage ⟨false, [], some "t", some "u", false⟩
      ⟨1, ["a\x1Bb"]⟩ none none =
      some (.declined "Output of check script:\nab") ∧
    ¬ ("a\x1Bb".data <:+: "Output of check script:\nab".data) :=
  ⟨rfl, by decide⟩

/-- C7 as amended: on a non-zero classifier exit, check_source_submission
declines and the message is the fixed header followed by the output lines
joined with two spaces, with ESC (0x1B) characters removed. -/
theorem classifier_failure_decline (cfg : CheckSourceConfig)
    (run : ClassifierRun) (old_version new_version : Option String)
    (h : run.exit_code ≠ 0) :
    check_script_stage cfg run old_version new_version =
      some (.declined ("Output of check script:\n" ++ join_output run.lines)) := by
  simp [check_script_stage, h]

/-- Witness for C7 as amended, on a failing run with clean output. -/
theorem classifier_failure_decline_witness :
    check_script_stage ⟨false, [], some "t", some "u", false⟩
      ⟨1, ["bad spec\n"]⟩ none none =
      some (.declined "Output of check script:\nbad spec\n") :=
  (classifier_failure_decline ⟨false, [], some "t", some "u", false⟩
    ⟨1, ["bad spec\n"]⟩ none none (by decide)).trans (by decide)

/-- Folding grouping expressions onto a splitter leaves its filters
unchanged. -/
theorem group_by_foldl_filters (gs : List String) (s : SplitterState) :
    (gs.foldl group_by_add s).filters = s.filters := by
  induction gs generalizing s with
  | nil => rfl
  | cons g gs ih => simp [List.foldl, group_by_add, ih]

/-- Folding grouping expressions onto a splitter appends them to its
grouping list. -/
theorem group_by_foldl_groups (gs : List String) (s : SplitterState) :
    (gs.foldl group_by_add s).groups = s.groups ++ gs := by
  induction gs generalizing s with
  | nil => simp
  | cons g gs ih => simp [List.foldl, group_by_add, ih]

/-- C8: select invoked with no stagings, no requests and no filter options
takes proposal mode, and exactly the two default predicates — exclude
role-add and devel-change actions, exclude ignored requests — are applied
before grouping. -/
theorem select_default_filters (group_by : List String) :
    select_proposal_mode [] [] [] group_by = true ∧
    (select_setup [] [] group_by).filters =
      [default_action_filter, default_ignored_filter] ∧
    (select_setup [] [] group_by).groups = group_by := by
  refine ⟨?_, ?_, ?_⟩
  · simp [select_proposal_mode]
  · simp [select_setup, splitter_new, filter_add, group_by_foldl_filters]
  · simp [select_setup, splitter_new, filter_add, group_by_foldl_groups]

/-- C9: do_staging validates the per-subcommand argument counts before any
configuration, lock acquisition or remote call: a WrongArgs raise leaves an
empty effect trace; unknown commands, too few arguments (in particular
unselect and ignore without a request) and too many arguments all raise. -/
theorem args_validated_before_effects (args : List String) (w : Bool)
    (e : StagingError) (h : validate_args args = some e) :
    do_staging args w = ([], some e) ∧
    do_staging ["unselect"] w = ([], some (.wrongArgs "Too few arguments.")) ∧
    do_staging ["ignore"] w = ([], some (.wrongArgs "Too few arguments.")) ∧
    validate_args ["bogus"] = some (.wrongArgs ("Unknown command: " ++ "bogus")) ∧
    validate_args ["check", "a", "b", "c"] =
      some (.wrongArgs "Too many arguments.") := by
  refine ⟨?_, rfl, rfl, rfl, rfl⟩
  simp [do_staging, h]

/-- Witness for C9 on an unselect invocation with no request argument. -/
theorem args_validated_before_effects_witness :
    do_staging ["unselect"] false =
      ([], some (.wrongArgs "Too few arguments.")) :=
  (args_validated_before_effects ["unselect"] false
    (.wrongArgs "Too few arguments.") rfl).1

/-- C6: re-ignoring a request id that the ignored mapping already holds is a
no-op on the persisted mapping, which keeps exactly one entry for the id. -/
theorem ignore_add_idempotent (check : String → Bool) (message : Option String)
    (rid : String) (k : Int) (m0 : List (PyKey × Option String))
    (hkeys : ∀ p ∈ m0, isIntKey p.1 = true)
    (hnodup : (m0.map Prod.fst).Nodup)
    (hk : pyInt rid = some k)
    (hmem : PyKey.int k ∈ m0.map Prod.fst)
    (hcheck : check rid = true) :
    ignore_perform check message [rid] m0 = some m0 ∧
    (m0.map Prod.fst).count (PyKey.int k) = 1 := by
  have hstr : PyKey.str rid ∉ m0.map Prod.fst := by
    intro hc
    obtain ⟨p, hp, hpk⟩ := List.mem_map.mp hc
    have hint := hkeys p hp
    rw [hpk] at hint
    simp [isIntKey] at hint
  have hfold : ignore_fold check message [rid] m0 =
      some (dict_insert m0 (PyKey.int k) message) := by
    simp [ignore_fold, hcheck, hstr, hk]
  have hlen : (dict_insert m0 (PyKey.int k) message).length = m0.length := by
    simp [dict_insert, hmem]
  constructor
  · simp [ignore_perform, hfold, hlen]
  · exact List.count_eq_one_of_mem hnodup hmem

/-- Witness for C6: ignoring request 123 again with a fresh message leaves
the persisted single-entry mapping untouched. -/
theorem ignore_add_idempotent_witness :
    ignore_perform (fun _ => true) (some "still broken") ["123"]
      [(PyKey.int 123, some "old message")] =
      some [(PyKey.int 123, some "old message")] ∧
    ([(PyKey.int 123, some "old message")].map Prod.fst).count (PyKey.int 123) = 1 :=
  ignore_add_idempotent (fun _ => true) (some "still broken") "123" 123
    [(PyKey.int 123, some "old message")] (by decide) (by decide) (by decide)
    (by decide) rfl

end OscFactory
